import Mathlib

/-!
Verification of the emval email-validation pipeline.

This file embeds the decision logic of the repository's validators
(`src/validators/syntax_validator.py`, `src/validators/smtp_validator.py`,
`src/validators/core.py`, the shared cache logic of
`src/validators/local_dns_checker.py` and `src/validators/http_dns_checker.py`,
and the DNS response parser of `src/validators/http_dns_checker.py`) as
executable Lean definitions, and proves the specification claims about them.

Strings from the Python side are embedded as `List Char` when their structure
matters (emails, domains, labels) and as `String` for messages.  Python regex
matching with the `^...$` anchors keeps Python semantics: `$` also matches just
before a single trailing newline.
-/

/-- Characters stripped by Python `str.strip()` (the ASCII whitespace cases). -/
def isPythonSpace (c : Char) : Bool :=
  c = ' ' || c = '\t' || c = '\n' || c = '\r' || c = Char.ofNat 11 || c = Char.ofNat 12

/-- Python `str.strip()`. -/
def pyStrip (l : List Char) : List Char :=
  ((l.dropWhile isPythonSpace).reverse.dropWhile isPythonSpace).reverse

/-- Python `s.split(sep)` for a one-character separator.
`"".split(sep) = [""]`, `".a".split(".") = ["", "a"]`. -/
def splitOnChar (sep : Char) : List Char → List (List Char)
  | [] => [[]]
  | c :: cs =>
    let rest := splitOnChar sep cs
    if c = sep then [] :: rest
    else
      match rest with
      | [] => [[c]]
      | p :: ps => (c :: p) :: ps

/-- Python `s.rsplit(sep, 1)` as a pair (before, after); when `sep` is absent
the whole string is returned as the first component (callers guard on the
separator count first, as the source does). -/
def rsplitAt (sep : Char) (l : List Char) : List Char × List Char :=
  match l.reverse.span (fun c => !(c == sep)) with
  | (revAfter, revRest) =>
    match revRest with
    | [] => (l, [])
    | _ :: revBefore => (revBefore.reverse, revAfter.reverse)

/-- Python substring test `'..' in s`. -/
def hasDoubleDot : List Char → Bool
  | c1 :: c2 :: rest => (c1 = '.' && c2 = '.') || hasDoubleDot (c2 :: rest)
  | _ => false

/-- Python `re.match` of a pattern `^CORE$` against `s`: the regex `$` anchor
matches at the end of the string or just before a single trailing newline. -/
def pyAnchoredMatch (core : List Char → Bool) (l : List Char) : Bool :=
  core l || (l.getLast? == some '\n' && core l.dropLast)

namespace EmailSyntaxValidator

/-!
Embedding of `src/validators/syntax_validator.py`, `EmailSyntaxValidator`
with its default options (`allow_smtputf8 = allow_empty_local =
allow_quoted_local = allow_domain_literal = False`,
`allowed_special_domains = []`), which is the only configuration the
repository instantiates.
-/

/-- The symbol codes of the regex class
`[a-zA-Z0-9!#$%&'*+/=?^_\x60\x7b|\x7d~-]` (`ATEXT`, line 26 of the source),
besides letters and digits: the characters
`! # $ % & apostrophe * + - / = ? ^ _ backtick lbrace pipe rbrace ~`. -/
def atextSymbolCodes : List Nat :=
  [33, 35, 36, 37, 38, 39, 42, 43, 45, 47, 61, 63, 94, 95, 96, 123, 124, 125, 126]

/-- Membership in the `ATEXT` character class. -/
def isAtext (c : Char) : Bool :=
  c.isAlpha || c.isDigit || atextSymbolCodes.contains c.toNat

/-- Full match of the `DOT_ATOM` regex `ATEXT+(\.ATEXT+)*` (line 27):
every dot-separated part is a nonempty run of atext characters. -/
def dotAtomMatch (l : List Char) : Bool :=
  (splitOnChar '.' l).all (fun p => !p.isEmpty && p.all isAtext)

/-- Character class `[a-zA-Z0-9-]` used for domain labels (line 317). -/
def isLabelChar (c : Char) : Bool :=
  c.isAlpha || c.isDigit || c = '-'

/-- Full match of `[a-zA-Z0-9-]+`. -/
def labelCharsMatch (l : List Char) : Bool :=
  !l.isEmpty && l.all isLabelChar

/-- Source `RESERVED_DOMAINS` (lines 47-51). -/
def reservedDomains : List (List Char) :=
  ["test", "example", "invalid", "localhost",
   "example.com", "example.net", "example.org",
   "test.com", "invalid.com"].map String.toList

/-- Source `_validate_dot_atom_local` (lines 179-211), with `allow_smtputf8 = False`. -/
def validate_dot_atom_local (locl : List Char) : Bool × String :=
  if locl.head? == some '.' || locl.getLast? == some '.' then
    (false, "Local part cannot start or end with dot")
  else if hasDoubleDot locl then
    (false, "Local part cannot contain consecutive dots")
  else if pyAnchoredMatch dotAtomMatch locl then
    (true, "")
  else
    (false, "Invalid characters in local part (Unicode not allowed)")

/-- Source `_validate_local_part` (lines 125-152), with `allow_empty_local = False`
and `allow_quoted_local = False`. -/
def validate_local_part (locl : List Char) : Bool × String :=
  if locl.isEmpty then (false, "Local part is empty")
  else if 64 < locl.length then (false, "Local part exceeds 64 characters")
  else if locl.head? == some (Char.ofNat 34) && locl.getLast? == some (Char.ofNat 34) then
    (false, "Quoted local parts not allowed")
  else validate_dot_atom_local locl

/-- The per-label checks of the loop in `_validate_regular_domain`
(lines 298-318), with `allow_smtputf8 = False`; `none` means the label passed. -/
def labelError (lab : List Char) : Option String :=
  if lab.isEmpty then some "Domain contains empty label (consecutive dots)"
  else if 63 < lab.length then
    some ("Domain label " ++ String.mk lab ++ " exceeds 63 characters")
  else if lab.head? == some '-' || lab.getLast? == some '-' then
    some ("Domain label " ++ String.mk lab ++ " cannot start or end with hyphen")
  else if pyAnchoredMatch labelCharsMatch lab then none
  else some ("Invalid characters in domain label " ++ String.mk lab ++ " (Unicode not allowed)")

/-- Source `_validate_regular_domain` (lines 264-325), with
`allowed_special_domains = []`. -/
def validate_regular_domain (domain : List Char) : Bool × String :=
  let domainLower := domain.map Char.toLower
  if !domain.contains '.' then
    (false, "Domain must contain at least one dot (TLD required)")
  else if reservedDomains.contains domainLower then
    (false, "Reserved domain " ++ String.mk domain ++ " not allowed")
  else if domain.head? == some '.' || domain.getLast? == some '.' then
    (false, "Domain cannot start or end with dot")
  else if domain.head? == some '-' || domain.getLast? == some '-' then
    (false, "Domain cannot start or end with hyphen")
  else
    let labels := splitOnChar '.' domain
    match labels.findSome? labelError with
    | some err => (false, err)
    | none =>
      match labels.getLast? with
      | some tld =>
        if tld.length < 2 then
          (false, "TLD " ++ String.mk tld ++ " must be at least 2 characters")
        else (true, "")
      | none => (true, "")

/-- Source `_validate_domain_part` (lines 213-237), with `allow_domain_literal = False`. -/
def validate_domain_part (domain : List Char) : Bool × String :=
  if domain.isEmpty then (false, "Domain is empty")
  else if 253 < domain.length then (false, "Domain exceeds 253 characters")
  else if domain.head? == some '[' && domain.getLast? == some ']' then
    (false, "Domain literals not allowed")
  else validate_regular_domain domain

/-- Source `validate` (lines 83-123); `pyStrip email` is the stripped email and
`rsplitAt` recovers the `local, domain = email.rsplit('@', 1)` split. -/
def validate (email : List Char) : Bool × String :=
  if email.isEmpty then (false, "Email must be a non-empty string")
  else if 254 < (pyStrip email).length then (false, "Email exceeds 254 characters")
  else if (pyStrip email).count '@' = 0 then (false, "Email must contain @ symbol")
  else if 1 < (pyStrip email).count '@' then (false, "Email must contain exactly one @ symbol")
  else if (validate_local_part (rsplitAt '@' (pyStrip email)).1).1 then
    (if (validate_domain_part (rsplitAt '@' (pyStrip email)).2).1 then (true, "")
     else (false, "Invalid domain: " ++ (validate_domain_part (rsplitAt '@' (pyStrip email)).2).2))
  else
    (false, "Invalid local part: " ++ (validate_local_part (rsplitAt '@' (pyStrip email)).1).2)

/-- The local part that `validate` examines: the text before the last `@` of
the stripped email. -/
def localPartOf (email : List Char) : List Char :=
  (rsplitAt '@' (pyStrip email)).1

/-- Source `extract_domain` (lines 327-344). -/
def extract_domain (email : List Char) : Option (List Char) :=
  if email.contains '@' then
    some ((rsplitAt '@' email).2.map Char.toLower)
  else none

end EmailSyntaxValidator

example : EmailSyntaxValidator.validate ("user@yahoo.com".toList) = (true, "") := by decide
example : EmailSyntaxValidator.validate ("user+tag@yahoo.com".toList) = (true, "") := by decide
example : EmailSyntaxValidator.validate ("user@mysite.c0m".toList) = (true, "") := by decide
example : (EmailSyntaxValidator.validate ("user,tag@yahoo.com".toList)).1 = false := by decide
example : (EmailSyntaxValidator.validate ("user@mysite.x".toList)).1 = false := by decide
example : EmailSyntaxValidator.extract_domain ("a@B.Com".toList) = some ("b.com".toList) := by decide

namespace SMTPValidator

/-!
Embedding of the classification logic of
`src/validators/smtp_validator.py`, `SMTPValidator.validate_mailbox`
(lines 169-276).  The network interaction is abstracted as an `SMTPProbe`:
the outcome of the EHLO/STARTTLS handshake and the RCPT TO response codes
the server would give for the real address and for the randomized
catch-all probe address.
-/

inductive SMTPStatus where
  | valid
  | invalid
  | unknown
  | catchAll
deriving DecidableEq, Repr

/-- Source `VALID_CODES` (line 30). -/
def VALID_CODES : List Nat := [250, 251]

/-- Source `INVALID_CODES` (line 31). -/
def INVALID_CODES : List Nat := [550, 551, 553]

/-- Source `MAILBOX_FULL_CODE` (line 32). -/
def MAILBOX_FULL_CODE : Nat := 552

/-- Source `TEMPORARY_ERROR_CODES` (line 33). -/
def TEMPORARY_ERROR_CODES : List Nat := [450, 451, 452, 421]

/-- Source `AMBIGUOUS_CODE` (line 34). -/
def AMBIGUOUS_CODE : Nat := 252

/-- Abstraction of one SMTP session: what the handshake and the two
RCPT TO probes would return. -/
structure SMTPProbe where
  handshakeError : Option String
  realCode : Nat
  realMessage : String
  catchallCode : Nat
  catchallMessage : String

/-- Source `validate_mailbox` (lines 169-276): classification of the session
outcomes into `(status, code, message, is_catchall)`. -/
def validate_mailbox (probe : SMTPProbe) (checkCatchall : Bool) :
    SMTPStatus × Nat × String × Bool :=
  match probe.handshakeError with
  | some e => (.unknown, 0, "SMTP handshake failed: " ++ e, false)
  | none =>
    let code := probe.realCode
    let message := probe.realMessage
    if INVALID_CODES.contains code || code = MAILBOX_FULL_CODE then
      (.invalid, code,
        if code = MAILBOX_FULL_CODE then "Mailbox full: " ++ message else message,
        false)
    else if TEMPORARY_ERROR_CODES.contains code || code = AMBIGUOUS_CODE
        || !(VALID_CODES.contains code) then
      (.unknown, code,
        if code = AMBIGUOUS_CODE then "Ambiguous response: " ++ message
        else if TEMPORARY_ERROR_CODES.contains code then "Temporary error: " ++ message
        else "Unknown code " ++ toString code ++ ": " ++ message,
        false)
    else
      if checkCatchall && VALID_CODES.contains probe.catchallCode then
        (.catchAll, code, "Valid but catch-all enabled (risky)", true)
      else
        (.valid, code, message, false)

end SMTPValidator

namespace EmailValidationService

/-!
Embedding of `src/validators/core.py`, `EmailValidationService`.
`_validate_internal` (lines 129-212) is modelled as a function of the
configuration flags and of the collaborating components
(`disposable_checker.is_disposable`, `dns_checker.check_domain`,
`dns_checker.get_mx_servers`, `smtp_validator.validate_mailbox`), which are
passed in as functions.
-/

inductive Category where
  | valid
  | risk
  | invalid
  | unknown
deriving DecidableEq, Repr

/-- The configuration flags of `EmailValidationService.__init__` that
`_validate_internal` consults; `hasSmtpValidator` is the truthiness of
`self.smtp_validator`. -/
structure CoreConfig where
  deliverableAddress : Bool
  smtpValidation : Bool
  hasSmtpValidator : Bool

/-- The collaborating components called by `_validate_internal`. -/
structure CoreDeps where
  isDisposable : List Char → Bool
  checkDomain : List Char → Bool × String
  getMxServers : List Char → List (List Char)
  validateMailbox : List Char → List Char → Bool → SMTPValidator.SMTPStatus × Nat × String × Bool

/-- Steps 4 and 5 of `_validate_internal` (lines 185-212): SMTP RCPT TO and
catch-all classification, with the shared fallthrough return. -/
def smtp_step (cfg : CoreConfig) (deps : CoreDeps) (email : List Char)
    (mxServers : List (List Char)) : List Char × Bool × String × Category :=
  match mxServers with
  | mxServer :: _ =>
    if cfg.smtpValidation && cfg.hasSmtpValidator then
      let (status, _code, message, _isCatchall) := deps.validateMailbox email mxServer true
      match status with
      | .catchAll => (email, true, "Catch-all domain (risky)", Category.risk)
      | .valid => (email, true, "Valid mailbox", Category.valid)
      | .invalid => (email, false, message, Category.invalid)
      | .unknown => (email, true, message, Category.unknown)
    else (email, true, "Valid (DNS only)", Category.valid)
  | [] => (email, true, "Valid (DNS only)", Category.valid)

/-- Source `_validate_internal` (lines 129-212). -/
def validate_internal (cfg : CoreConfig) (deps : CoreDeps) (email : List Char) :
    List Char × Bool × String × Category :=
  if email.isEmpty then (email, false, "Empty email", Category.invalid)
  else
    let syntaxResult := EmailSyntaxValidator.validate email
    if !syntaxResult.1 then (email, false, syntaxResult.2, Category.invalid)
    else if deps.isDisposable email then
      (email, false, "Disposable email domain", Category.invalid)
    else
      match EmailSyntaxValidator.extract_domain email with
      | none => (email, false, "Invalid email format", Category.invalid)
      | some domain =>
        let needMx := cfg.deliverableAddress || (cfg.smtpValidation && cfg.hasSmtpValidator)
        if needMx then
          let (hasMx, dnsError) := deps.checkDomain domain
          if !hasMx then
            if cfg.deliverableAddress then (email, false, dnsError, Category.invalid)
            else smtp_step cfg deps email []
          else smtp_step cfg deps email (deps.getMxServers domain)
        else smtp_step cfg deps email []

end EmailValidationService

namespace DNSChecker

/-!
Embedding of the cache layer shared verbatim by
`LocalDNSChecker.check_domain` (`src/validators/local_dns_checker.py`,
lines 85-122) and `HTTPDNSChecker.check_domain`
(`src/validators/http_dns_checker.py`, lines 66-103).  The `OrderedDict`
cache is modelled as an association list whose last element is the
most-recently-used entry; `_check_domain_impl` is passed in as a function
returning `(has_records, error, cacheable)`.
-/

/-- The mutable state of a DNS checker: the `OrderedDict` cache (least
recent first) and the hit/miss counters. -/
structure DNSCacheState where
  entries : List (List Char × (Bool × String))
  hits : Nat
  misses : Nat
deriving DecidableEq, Repr

/-- Cache lookup (`domain in self._cache` / `self._cache[domain]`). -/
def findEntry (es : List (List Char × (Bool × String))) (d : List Char) :
    Option (Bool × String) :=
  (es.find? (fun p => p.1 == d)).map (fun p => p.2)

/-- Source `OrderedDict.move_to_end`: move the entry with the given key to the
most-recently-used (last) position. -/
def moveToEnd (es : List (List Char × (Bool × String))) (d : List Char) :
    List (List Char × (Bool × String)) :=
  match es with
  | [] => []
  | e :: t => if e.1 == d then t ++ [e] else e :: moveToEnd t d

/-- Source `check_domain` (identical in both checkers): cache hit returns the cached
outcome and marks recency; on a miss the lookup runs and only a `cacheable`
(definitive) outcome is stored, evicting the least-recently-used entry
(`popitem(last=False)`) when the size bound is exceeded. -/
def check_domain (cacheSize : Nat) (impl : List Char → Bool × String × Bool)
    (st : DNSCacheState) (domain : List Char) :
    (Bool × String) × DNSCacheState :=
  let d := domain.map Char.toLower
  match findEntry st.entries d with
  | some v =>
    (v, { st with hits := st.hits + 1, entries := moveToEnd st.entries d })
  | none =>
    let st1 := { st with misses := st.misses + 1 }
    let r := impl d
    if r.2.2 then
      let es := st1.entries ++ [(d, (r.1, r.2.1))]
      let es2 := if cacheSize < es.length then es.drop 1 else es
      ((r.1, r.2.1), { st1 with entries := es2 })
    else ((r.1, r.2.1), st1)

/-- A sequence of `check_domain` calls threaded through the state. -/
def run_calls (cacheSize : Nat) (impl : List Char → Bool × String × Bool)
    (st : DNSCacheState) (ds : List (List Char)) : DNSCacheState :=
  ds.foldl (fun s d => (check_domain cacheSize impl s d).2) st

end DNSChecker

namespace HTTPDNSChecker

/-!
Embedding of `HTTPDNSChecker._parse_dns_response`
(`src/validators/http_dns_checker.py`, lines 244-308).  The JSON value the
API returned is an arbitrary Python object; the Python operations the parser
applies to it (`dict.get`, truthiness, `len`, iteration, `isinstance`,
subscripting) are modelled in an `Except` monad whose error case is a raised
Python exception, and the surrounding `try/except` converts any such raise
into the retry signal `none`.
-/

inductive JSON where
  | null
  | bool (b : Bool)
  | num (n : Int)
  | str (s : String)
  | arr (xs : List JSON)
  | obj (kvs : List (String × JSON))

/-- Source `x.get(key, default)`: raises `AttributeError` unless `x` is a dict. -/
def pyGet (d : JSON) (k : String) (dflt : JSON) : Except String JSON :=
  match d with
  | .obj kvs => .ok (((kvs.find? (fun p => p.1 == k)).map (fun p => p.2)).getD dflt)
  | _ => .error "AttributeError"

/-- Python truthiness; never raises. -/
def pyTruthy : JSON → Bool
  | .null => false
  | .bool b => b
  | .num n => n != 0
  | .str s => !s.isEmpty
  | .arr xs => !xs.isEmpty
  | .obj kvs => !kvs.isEmpty

/-- Python `len(x)`: raises `TypeError` on objects without a length. -/
def pyLen : JSON → Except String Nat
  | .str s => .ok s.length
  | .arr xs => .ok xs.length
  | .obj kvs => .ok kvs.length
  | _ => .error "TypeError"

/-- Python `for x in xs`: raises `TypeError` on non-iterables; iterating a
string yields its characters as one-character strings, iterating a dict
yields its keys. -/
def pyIter : JSON → Except String (List JSON)
  | .arr xs => .ok xs
  | .str s => .ok (s.data.map (fun c => .str (String.mk [c])))
  | .obj kvs => .ok (kvs.map (fun p => .str p.1))
  | _ => .error "TypeError"

/-- Python `x != 'OK'` specialised to a string literal; false for any
non-string value, never raises. -/
def isStrEq (j : JSON) (s : String) : Bool :=
  match j with
  | .str t => t == s
  | _ => false

/-- The loop-body test `isinstance(mx, dict) and 'exchange' in mx and
mx['exchange']` (line 277). -/
def isValidMxEntry (j : JSON) : Bool :=
  match j with
  | .obj kvs =>
    match kvs.find? (fun p => p.1 == "exchange") with
    | some p => pyTruthy p.2
    | none => false
  | _ => false

/-- The loop-body tests `isinstance(a, str) and a` /
`isinstance(a, dict) and 'address' in a and a['address']` (lines 291-295). -/
def isValidAEntry (j : JSON) : Bool :=
  match j with
  | .str s => !s.isEmpty
  | .obj kvs =>
    match kvs.find? (fun p => p.1 == "address") with
    | some p => pyTruthy p.2
    | none => false
  | _ => false

/-- The guard `xs and len(xs) > 0` (lines 274 and 288): truthiness is
checked first (short-circuit), so `len` only runs, and can only raise, on a
truthy value. -/
def pyNonempty (j : JSON) : Except String Bool :=
  if pyTruthy j then
    match pyLen j with
    | .error e => .error e
    | .ok n => .ok (decide (0 < n))
  else .ok false

/-- The body of the `try` block of `_parse_dns_response` (lines 262-303);
a raised exception is an `Except.error`. -/
def parseBody (data : JSON) : Except String (Option (Bool × String)) :=
  match pyGet data "status" (.str "") with
  | .error e => .error e
  | .ok status =>
    if !(isStrEq status "OK") then .ok none
    else
      match pyGet data "records" (.obj []) with
      | .error e => .error e
      | .ok records =>
        match pyGet records "MX" (.arr []) with
        | .error e => .error e
        | .ok mxRecords =>
          match pyNonempty mxRecords with
          | .error e => .error e
          | .ok mxNonempty =>
            if mxNonempty then
              match pyIter mxRecords with
              | .error e => .error e
              | .ok items =>
                if items.any isValidMxEntry then .ok (some (true, ""))
                else .ok (some (false, "MX records exist but are invalid"))
            else
              match pyGet records "A" (.arr []) with
              | .error e => .error e
              | .ok aRecords =>
                match pyNonempty aRecords with
                | .error e => .error e
                | .ok aNonempty =>
                  if aNonempty then
                    match pyIter aRecords with
                    | .error e => .error e
                    | .ok aItems =>
                      if aItems.any isValidAEntry then .ok (some (true, ""))
                      else .ok (some (false, "No MX or A records found"))
                  else .ok (some (false, "No MX or A records found"))

/-- Source `_parse_dns_response` (lines 244-308): the `except` clause converts any
raised exception into the retry signal `None`. -/
def parse_dns_response (data : JSON) : Option (Bool × String) :=
  match parseBody data with
  | .ok r => r
  | .error _ => none

end HTTPDNSChecker

namespace LocalDNSChecker

/-!
Embedding of `LocalDNSChecker._check_domain_impl`
(`src/validators/local_dns_checker.py`, lines 124-266).  Each attempt makes
up to three resolver queries (MX, then A, then AAAA); a query either answers
with a list of records or raises one of the dnspython exceptions, which are
modelled as a closed `DNSFault` type.
-/

/-- The dnspython exceptions handled by `_check_domain_impl`. -/
inductive DNSFault where
  | noAnswer
  | nxdomain
  | timeout
  | lifetimeTimeout
  | noNameservers
  | noResolverConfig
  | dnsError (msg : String)
  | unexpectedError (msg : String)

/-- Outcome of one `resolver.resolve` call: the record strings (exchange
names for MX, addresses for A/AAAA) or a raised exception. -/
inductive QueryResult where
  | answer (records : List String)
  | raised (f : DNSFault)

/-- What the three queries of one attempt would return. -/
structure AttemptEvents where
  mx : QueryResult
  a : QueryResult
  aaaa : QueryResult

/-- The MX query step (lines 144-165): `NoAnswer` falls through to the
A/AAAA fallback (`none`), `NXDOMAIN` is a definitive failure, a nonempty
answer is classified by the null-MX test `mx.exchange and
str(mx.exchange) != '.'`, other exceptions propagate to the attempt loop. -/
def checkMx (q : QueryResult) : Except DNSFault (Option (Bool × String × Bool)) :=
  match q with
  | .answer recs =>
    if !recs.isEmpty then
      if recs.any (fun r => !r.isEmpty && r != ".") then
        .ok (some (true, "", true))
      else
        .ok (some (false, "Domain rejects email (null MX records)", true))
    else .ok none
  | .raised .noAnswer => .ok none
  | .raised .nxdomain => .ok (some (false, "Domain not found (no DNS records)", true))
  | .raised f => .error f

/-- The A/AAAA query steps (lines 167-192): a nonempty answer is a success,
`NoAnswer` falls through, `NXDOMAIN` is definitive, other exceptions
propagate. -/
def checkAddress (q : QueryResult) : Except DNSFault (Option (Bool × String × Bool)) :=
  match q with
  | .answer recs =>
    if !recs.isEmpty then .ok (some (true, "", true)) else .ok none
  | .raised .noAnswer => .ok none
  | .raised .nxdomain => .ok (some (false, "Domain not found (no DNS records)", true))
  | .raised f => .error f

/-- One attempt of the retry loop: MX, then A, then AAAA, then the
definitive no-records failure (lines 141-196). -/
def attemptResult (ev : AttemptEvents) : Except DNSFault (Bool × String × Bool) := do
  match ← checkMx ev.mx with
  | some r => return r
  | none =>
    match ← checkAddress ev.a with
    | some r => return r
    | none =>
      match ← checkAddress ev.aaaa with
      | some r => return r
      | none => return (false, "No MX, A, or AAAA records found", true)

/-- The `except` arms of the attempt loop (lines 198-263): transient faults
retry while attempts remain and otherwise surface with `cacheable = false`;
`NXDOMAIN` and `NoAnswer` are definitive; an unexpected exception returns
immediately without retrying. -/
def checkLoop (events : Nat → AttemptEvents) (attempt : Nat) :
    Nat → Bool × String × Bool
  | 0 => (false, "DNS lookup failed after retries (temporary)", false)
  | remaining + 1 =>
    match attemptResult (events attempt) with
    | .ok r => r
    | .error f =>
      match f with
      | .nxdomain => (false, "Domain not found (no DNS records)", true)
      | .noAnswer => (false, "No DNS records found", true)
      | .timeout =>
        if 0 < remaining then checkLoop events (attempt + 1) remaining
        else (false, "DNS check timeout (temporary)", false)
      | .lifetimeTimeout =>
        if 0 < remaining then checkLoop events (attempt + 1) remaining
        else (false, "DNS lifetime timeout (temporary)", false)
      | .noNameservers =>
        if 0 < remaining then checkLoop events (attempt + 1) remaining
        else (false, "All DNS servers failed (temporary)", false)
      | .noResolverConfig =>
        if 0 < remaining then checkLoop events (attempt + 1) remaining
        else (false, "DNS resolver not configured (temporary)", false)
      | .dnsError msg =>
        if 0 < remaining then checkLoop events (attempt + 1) remaining
        else (false, "DNS error (temporary): " ++ msg, false)
      | .unexpectedError msg => (false, "Unexpected error (temporary): " ++ msg, false)

/-- Source `_check_domain_impl` (lines 124-266): run up to `maxRetries` attempts. -/
def check_domain_impl (maxRetries : Nat) (events : Nat → AttemptEvents) :
    Bool × String × Bool :=
  checkLoop events 0 maxRetries

end LocalDNSChecker

namespace TLDValidator

/-- Source `TLDValidator.is_valid_tld` (`src/validators/tld_validator.py`,
lines 138-156): an empty TLD set rejects everything, otherwise lower-case
membership. -/
def is_valid_tld (tlds : List (List Char)) (tld : List Char) : Bool :=
  if tlds.isEmpty then false
  else tlds.contains (tld.map Char.toLower)

end TLDValidator

namespace EmailValidationService

/-!
Model of the constructor wiring checked by C10.  `EmailValidationService.__init__`
(`src/validators/core.py`, line 69) calls
`EmailSyntaxValidator(download_tld_list=download_tld_list)`; Python raises
`TypeError` when a call passes a keyword argument whose name is not among the
callee's parameters.
-/

/-- The parameter names accepted by the packaged
`EmailSyntaxValidator.__init__` (`src/validators/syntax_validator.py`,
lines 53-60). -/
def syntaxValidatorInitParams : List String :=
  ["allow_smtputf8", "allow_empty_local", "allow_quoted_local",
   "allow_domain_literal", "allowed_special_domains"]

/-- The keyword arguments that `EmailValidationService.__init__` passes to
`EmailSyntaxValidator` (`src/validators/core.py`, line 69). -/
def coreSyntaxValidatorCallKeywords : List String :=
  ["download_tld_list"]

/-- Outcome of running a Python call/constructor. -/
inductive InitOutcome where
  | ok
  | typeError (unexpectedKeyword : String)
deriving DecidableEq, Repr

/-- Python keyword-call semantics: the call raises `TypeError` on the first
keyword argument the callee does not accept. -/
def callSyntaxValidatorInit (kwargs : List String) : InitOutcome :=
  match kwargs.find? (fun k => !(syntaxValidatorInitParams.contains k)) with
  | some k => .typeError k
  | none => .ok

/-- The constructor arguments of `EmailValidationService.__init__` that are
plain data (the collaborator instances are irrelevant to the failure). -/
structure ServiceInitArgs where
  retryAttempts : Nat
  deliverableAddress : Bool
  smtpValidation : Bool
  downloadTldList : Bool
  globalTimeout : Nat

/-- Source `EmailValidationService.__init__` (lines 33-75): after the field
assignments it invokes `EmailSyntaxValidator(download_tld_list=...)`
(line 69), whose outcome decides whether the constructor completes. -/
def service_init (_args : ServiceInitArgs) : InitOutcome :=
  callSyntaxValidatorInit coreSyntaxValidatorCallKeywords

end EmailValidationService

/-!
## Helper lemmas
-/

lemma string_append_ne_empty (s t : String) (hs : s.length ≠ 0) : s ++ t ≠ "" := by
  intro h
  apply hs
  have hlen := congrArg String.length h
  rw [String.length_append] at hlen
  simpa using Nat.eq_zero_of_add_eq_zero_right hlen

lemma splitOnChar_ne_nil (sep : Char) (l : List Char) : splitOnChar sep l ≠ [] := by
  induction l with
  | nil => simp [splitOnChar]
  | cons c cs ih =>
    simp only [splitOnChar]
    by_cases h : c = sep
    · simp [h]
    · simp only [h, if_false]
      cases hr : splitOnChar sep cs with
      | nil => simp
      | cons p ps => simp

lemma mem_splitOnChar (sep : Char) (l : List Char) (c : Char) (hc : c ∈ l) :
    c = sep ∨ ∃ p ∈ splitOnChar sep l, c ∈ p := by
  induction l with
  | nil => cases hc
  | cons a t ih =>
    rcases List.mem_cons.mp hc with h | h
    · subst h
      by_cases hsep : c = sep
      · exact Or.inl hsep
      · right
        cases hr : splitOnChar sep t with
        | nil => exact absurd hr (splitOnChar_ne_nil sep t)
        | cons p ps =>
          refine ⟨c :: p, ?_, List.mem_cons_self _ _⟩
          simp [splitOnChar, hsep, hr]
    · rcases ih h with h2 | ⟨p, hp, hcp⟩
      · exact Or.inl h2
      · right
        by_cases hsep : a = sep
        · exact ⟨p, by simp [splitOnChar, hsep, hp], hcp⟩
        · cases hr : splitOnChar sep t with
          | nil => rw [hr] at hp; cases hp
          | cons p0 ps =>
            rw [hr] at hp
            rcases List.mem_cons.mp hp with h3 | h3
            · subst h3
              exact ⟨a :: p, by simp [splitOnChar, hsep, hr], List.mem_cons_of_mem _ hcp⟩
            · exact ⟨p, by simp [splitOnChar, hsep, hr, h3], hcp⟩

lemma dotAtom_mem (l : List Char) (hl : EmailSyntaxValidator.dotAtomMatch l = true)
    {c : Char} (hc : c ∈ l) : EmailSyntaxValidator.isAtext c = true ∨ c = '.' := by
  rcases mem_splitOnChar '.' l c hc with h | ⟨p, hp, hcp⟩
  · exact Or.inr h
  · left
    have h1 := List.all_eq_true.mp hl p hp
    simp only [Bool.and_eq_true] at h1
    exact List.all_eq_true.mp h1.2 c hcp

lemma mem_dropLast_or_getLast (l : List Char) (c : Char) (hc : c ∈ l) :
    c ∈ l.dropLast ∨ l.getLast? = some c := by
  induction l with
  | nil => cases hc
  | cons a t ih =>
    cases t with
    | nil =>
      right
      have : c = a := by simpa using hc
      simp [this]
    | cons b u =>
      rcases List.mem_cons.mp hc with h | h
      · left
        subst h
        simp [List.dropLast]
      · rcases ih h with h2 | h2
        · left
          simp [List.dropLast, h2]
        · right
          simpa [List.getLast?_cons_cons] using h2

lemma pyDotAtom_mem (l : List Char)
    (hl : pyAnchoredMatch EmailSyntaxValidator.dotAtomMatch l = true)
    {c : Char} (hc : c ∈ l) :
    EmailSyntaxValidator.isAtext c = true ∨ c = '.' ∨ c = '\n' := by
  unfold pyAnchoredMatch at hl
  simp only [Bool.or_eq_true, Bool.and_eq_true] at hl
  rcases hl with h | h
  · rcases dotAtom_mem l h hc with h2 | h2
    · exact Or.inl h2
    · exact Or.inr (Or.inl h2)
  · obtain ⟨hlast, hcore⟩ := h
    have hl2 : l.getLast? = some '\n' := by simpa using hlast
    rcases mem_dropLast_or_getLast l c hc with h2 | h2
    · rcases dotAtom_mem _ hcore h2 with h3 | h3
      · exact Or.inl h3
      · exact Or.inr (Or.inl h3)
    · rw [hl2] at h2
      exact Or.inr (Or.inr (Option.some_inj.mp h2).symm)

lemma validate_local_part_fails (locl : List Char) (c : Char) (hc : c ∈ locl)
    (h1 : EmailSyntaxValidator.isAtext c = false) (h2 : c ≠ '.') (h3 : c ≠ '\n') :
    (EmailSyntaxValidator.validate_local_part locl).1 = false := by
  unfold EmailSyntaxValidator.validate_local_part EmailSyntaxValidator.validate_dot_atom_local
  split_ifs with hA hB hC hD hE hF
  · rfl
  · rfl
  · rfl
  · rfl
  · rfl
  · exfalso
    rcases pyDotAtom_mem locl hF hc with h4 | h4 | h4
    · rw [h1] at h4; cases h4
    · exact h2 h4
    · exact h3 h4
  · rfl

/-!
## Claim theorems
-/

/-- C3, counterexample: the claim says every local part containing a
character outside letters, digits, dot and underscore is rejected, but the
packaged validator accepts the plus sign: `user+tag@yahoo.com` validates
with `ok = true`. -/
theorem c3_plus_accepted_counterexample :
    EmailSyntaxValidator.validate ("user+tag@yahoo.com".toList) = (true, "") := by
  decide

/-- C3 (amended): the local-part character set of the packaged validator is
the RFC 5322 atext set (letters, digits and the symbols of `ATEXT`,
including plus and hyphen) with dot separators; an email whose local part
contains a character outside atext other than a dot (or the trailing
newline tolerated by the Python `$` anchor) is rejected with a nonempty
error reason. -/
theorem c3_local_charset_amended (email : List Char) (c : Char)
    (hc : c ∈ EmailSyntaxValidator.localPartOf email)
    (hA : EmailSyntaxValidator.isAtext c = false)
    (hDot : c ≠ '.') (hNl : c ≠ '\n') :
    (EmailSyntaxValidator.validate email).1 = false ∧
    (EmailSyntaxValidator.validate email).2 ≠ "" := by
  unfold EmailSyntaxValidator.localPartOf at hc
  have hfail := validate_local_part_fails _ c hc hA hDot hNl
  unfold EmailSyntaxValidator.validate
  split_ifs with h0 h1 h2 h3 h4 h5
  · exact ⟨rfl, by decide⟩
  · exact ⟨rfl, by decide⟩
  · exact ⟨rfl, by decide⟩
  · exact ⟨rfl, by decide⟩
  · rw [hfail] at h4; cases h4
  · rw [hfail] at h4; cases h4
  · exact ⟨rfl, string_append_ne_empty _ _ (by decide)⟩

/-- Witness for the amended C3 theorem: `user,tag@yahoo.com` contains a
comma, which is outside atext, and is rejected with a reason. -/
theorem c3_local_charset_amended_witness :
    (',' ∈ EmailSyntaxValidator.localPartOf ("user,tag@yahoo.com".toList) ∧
     EmailSyntaxValidator.isAtext ',' = false) ∧
    ((EmailSyntaxValidator.validate ("user,tag@yahoo.com".toList)).1 = false ∧
     (EmailSyntaxValidator.validate ("user,tag@yahoo.com".toList)).2 ≠ "") :=
  ⟨⟨by decide, by decide⟩,
   c3_local_charset_amended _ ',' (by decide) (by decide) (by decide) (by decide)⟩

/-- C4, code bug: the packaged syntax validator never consults the TLD set
and does not require a letters-only TLD, although `core.py` documents "TLD
validated against IANA list": `user@mysite.c0m` is accepted even though
`c0m` is not letters-only and the TLD membership test of the TLD data
source rejects it; only the minimum-length rule of the claim is enforced
(`user@mysite.x` is rejected). -/
theorem c4_tld_set_not_consulted :
    EmailSyntaxValidator.validate ("user@mysite.c0m".toList) = (true, "") ∧
    TLDValidator.is_valid_tld (["com", "net", "org"].map String.toList) ("c0m".toList) = false ∧
    (EmailSyntaxValidator.validate ("user@mysite.x".toList)).1 = false := by
  refine ⟨by decide, by decide, by decide⟩

/-- C10: constructing `EmailValidationService` always raises `TypeError`,
because its `__init__` passes the keyword argument `download_tld_list` to
`EmailSyntaxValidator`, whose `__init__` accepts no parameter of that
name. -/
theorem c10_service_init_type_error (args : EmailValidationService.ServiceInitArgs) :
    EmailValidationService.service_init args =
      EmailValidationService.InitOutcome.typeError "download_tld_list" ∧
    EmailValidationService.syntaxValidatorInitParams.contains "download_tld_list" = false :=
  ⟨rfl, by decide⟩

/-- C6, counterexample: with deliverability checking disabled, SMTP enabled
and a failing DNS check, `_validate_internal` reports the email valid with
the reason string "Valid (DNS only)" — the very reason the claim says is
not assigned in that branch (it is the same fallthrough return as the
DNS-only success path); the SMTP stub returning `unknown` is never
consulted. -/
theorem c6_dns_only_reason_counterexample :
    EmailValidationService.validate_internal
      ⟨false, true, true⟩
      ⟨fun _ => false, fun _ => (false, "Domain not found (no DNS records)"),
       fun _ => [], fun _ _ _ => (SMTPValidator.SMTPStatus.unknown, 0, "probe", false)⟩
      ("user@yahoo.com".toList) =
    ("user@yahoo.com".toList, true, "Valid (DNS only)", EmailValidationService.Category.valid) := by
  decide

/-- C6 (amended): with deliverability checking disabled, SMTP validation
enabled and a failing DNS check, the DNS failure does not make the email
invalid, no SMTP probe occurs (the result is the same for every
`validateMailbox` and `getMxServers` behaviour, because the MX server list
is empty), and the email is reported valid — with the fallthrough reason
"Valid (DNS only)", the same reason string as the DNS-only success path. -/
theorem c6_dns_fail_smtp_only_amended
    (cfg : EmailValidationService.CoreConfig) (deps : EmailValidationService.CoreDeps)
    (email domain : List Char) (dnsErr : String)
    (hSyntax : (EmailSyntaxValidator.validate email).1 = true)
    (hDisp : deps.isDisposable email = false)
    (hDom : EmailSyntaxValidator.extract_domain email = some domain)
    (hDeliverOff : cfg.deliverableAddress = false)
    (hSmtpOn : cfg.smtpValidation = true)
    (hHas : cfg.hasSmtpValidator = true)
    (hDnsFail : deps.checkDomain domain = (false, dnsErr)) :
    EmailValidationService.validate_internal cfg deps email =
      (email, true, "Valid (DNS only)", EmailValidationService.Category.valid) := by
  have hne : email.isEmpty = false := by
    cases email with
    | nil => exact absurd hSyntax (by decide)
    | cons a t => rfl
  simp only [EmailValidationService.validate_internal, hne, Bool.false_eq_true, if_false,
    hSyntax, Bool.not_true, hDisp, hDom, hDeliverOff, hSmtpOn, hHas, Bool.and_self,
    Bool.false_or, Bool.true_and, Bool.or_true, if_true, hDnsFail, Bool.not_false,
    EmailValidationService.smtp_step]

/-- Witness for the amended C6 theorem at a concrete configuration. -/
theorem c6_dns_fail_smtp_only_amended_witness :
    EmailValidationService.validate_internal ⟨false, true, true⟩
      ⟨fun _ => false, fun _ => (false, "DNS check timeout (temporary)"),
       fun _ => [("mx.yahoo.com".toList)],
       fun _ _ _ => (SMTPValidator.SMTPStatus.invalid, 550, "no", false)⟩
      ("user@yahoo.com".toList) =
    ("user@yahoo.com".toList, true, "Valid (DNS only)", EmailValidationService.Category.valid) :=
  c6_dns_fail_smtp_only_amended ⟨false, true, true⟩ _ _ ("yahoo.com".toList) _
    (by decide) rfl (by decide) rfl rfl rfl rfl

/-- C1: when the handshake succeeds, the RCPT TO probe for the real address
returns 250 or 251, catch-all checking is requested and the probe for the
randomized address also returns 250 or 251, `validate_mailbox` returns
status catch-all with `is_catchall = true`, and `_validate_internal`
classifies the email as category risk (not valid) with `is_valid = true`. -/
theorem c1_catchall_classified_risk
    (cfg : EmailValidationService.CoreConfig) (deps : EmailValidationService.CoreDeps)
    (email domain mxServer : List Char) (rest : List (List Char))
    (probe : SMTPValidator.SMTPProbe)
    (hSyntax : (EmailSyntaxValidator.validate email).1 = true)
    (hDisp : deps.isDisposable email = false)
    (hDom : EmailSyntaxValidator.extract_domain email = some domain)
    (hDns : deps.checkDomain domain = (true, ""))
    (hMx : deps.getMxServers domain = mxServer :: rest)
    (hSmtpOn : cfg.smtpValidation = true)
    (hHas : cfg.hasSmtpValidator = true)
    (hWire : deps.validateMailbox email mxServer true = SMTPValidator.validate_mailbox probe true)
    (hHandshake : probe.handshakeError = none)
    (hReal : probe.realCode = 250 ∨ probe.realCode = 251)
    (hRand : probe.catchallCode = 250 ∨ probe.catchallCode = 251) :
    SMTPValidator.validate_mailbox probe true =
      (SMTPValidator.SMTPStatus.catchAll, probe.realCode,
       "Valid but catch-all enabled (risky)", true) ∧
    EmailValidationService.validate_internal cfg deps email =
      (email, true, "Catch-all domain (risky)", EmailValidationService.Category.risk) := by
  have hvm : SMTPValidator.validate_mailbox probe true =
      (SMTPValidator.SMTPStatus.catchAll, probe.realCode,
       "Valid but catch-all enabled (risky)", true) := by
    unfold SMTPValidator.validate_mailbox
    rcases hReal with hr | hr <;> rcases hRand with hc | hc <;>
      simp [hHandshake, hr, hc, SMTPValidator.INVALID_CODES, SMTPValidator.VALID_CODES,
        SMTPValidator.TEMPORARY_ERROR_CODES, SMTPValidator.MAILBOX_FULL_CODE,
        SMTPValidator.AMBIGUOUS_CODE]
  have hne : email.isEmpty = false := by
    cases email with
    | nil => exact absurd hSyntax (by decide)
    | cons a t => rfl
  refine ⟨hvm, ?_⟩
  simp only [EmailValidationService.validate_internal, hne, Bool.false_eq_true, if_false,
    hSyntax, Bool.not_true, hDisp, hDom, hSmtpOn, hHas, Bool.and_self, Bool.true_and,
    Bool.or_true, if_true, hDns, Bool.not_true, Bool.false_eq_true,
    hMx, EmailValidationService.smtp_step, hWire, hvm]

/-- Witness for C1 at a concrete pipeline configuration and probe. -/
theorem c1_catchall_classified_risk_witness :
    SMTPValidator.validate_mailbox ⟨none, 250, "OK", 250, "OK"⟩ true =
      (SMTPValidator.SMTPStatus.catchAll, 250, "Valid but catch-all enabled (risky)", true) ∧
    EmailValidationService.validate_internal ⟨true, true, true⟩
      ⟨fun _ => false, fun _ => (true, ""), fun _ => [("mx.yahoo.com".toList)],
       fun _ _ cc => SMTPValidator.validate_mailbox ⟨none, 250, "OK", 250, "OK"⟩ cc⟩
      ("user@yahoo.com".toList) =
    ("user@yahoo.com".toList, true, "Catch-all domain (risky)",
     EmailValidationService.Category.risk) :=
  c1_catchall_classified_risk ⟨true, true, true⟩ _ _ ("yahoo.com".toList)
    ("mx.yahoo.com".toList) [] ⟨none, 250, "OK", 250, "OK"⟩
    (by decide) rfl (by decide) rfl rfl rfl rfl rfl rfl (Or.inl rfl) (Or.inl rfl)

/-- C5: for an email that reaches the SMTP stage, whenever
`validate_mailbox` returns status unknown the service reports category
unknown with `is_valid = true`; and `validate_mailbox` does return unknown
on a handshake failure and on every response code that is neither valid
(250/251) nor a hard rejection (550/551/553/552) — covering 450, 451, 452,
421, 252 and any other non-definitive code. -/
theorem c5_smtp_unknown_is_valid_true
    (cfg : EmailValidationService.CoreConfig) (deps : EmailValidationService.CoreDeps)
    (email domain mxServer : List Char) (rest : List (List Char))
    (code : Nat) (msg : String) (flag : Bool) (cc2 cc3 : Bool)
    (probe2 probe3 : SMTPValidator.SMTPProbe) (herr : String)
    (hSyntax : (EmailSyntaxValidator.validate email).1 = true)
    (hDisp : deps.isDisposable email = false)
    (hDom : EmailSyntaxValidator.extract_domain email = some domain)
    (hDns : deps.checkDomain domain = (true, ""))
    (hMx : deps.getMxServers domain = mxServer :: rest)
    (hSmtpOn : cfg.smtpValidation = true)
    (hHas : cfg.hasSmtpValidator = true)
    (hU : deps.validateMailbox email mxServer true =
      (SMTPValidator.SMTPStatus.unknown, code, msg, flag))
    (hP2 : probe2.handshakeError = some herr)
    (hP3none : probe3.handshakeError = none)
    (hP3a : SMTPValidator.INVALID_CODES.contains probe3.realCode = false)
    (hP3b : probe3.realCode ≠ SMTPValidator.MAILBOX_FULL_CODE)
    (hP3c : SMTPValidator.VALID_CODES.contains probe3.realCode = false) :
    EmailValidationService.validate_internal cfg deps email =
      (email, true, msg, EmailValidationService.Category.unknown) ∧
    (SMTPValidator.validate_mailbox probe2 cc2).1 = SMTPValidator.SMTPStatus.unknown ∧
    (SMTPValidator.validate_mailbox probe3 cc3).1 = SMTPValidator.SMTPStatus.unknown := by
  have hne : email.isEmpty = false := by
    cases email with
    | nil => exact absurd hSyntax (by decide)
    | cons a t => rfl
  refine ⟨?_, ?_, ?_⟩
  · simp only [EmailValidationService.validate_internal, hne, Bool.false_eq_true, if_false,
      hSyntax, Bool.not_true, hDisp, hDom, hSmtpOn, hHas, Bool.and_self, Bool.true_and,
      Bool.or_true, if_true, hDns, hMx, EmailValidationService.smtp_step, hU]
  · simp [SMTPValidator.validate_mailbox, hP2]
  · simp only [SMTPValidator.validate_mailbox, hP3none, hP3a, hP3c, Bool.false_or,
      Bool.not_false, Bool.or_true, decide_eq_true_eq, if_true]
    rw [if_neg hP3b]

/-- Witness for C5: an SMTP outcome with a temporary 450 code yields
category unknown and `is_valid = true`; a handshake-failure probe and a 450
probe both classify as unknown. -/
theorem c5_smtp_unknown_is_valid_true_witness :
    EmailValidationService.validate_internal ⟨true, true, true⟩
      ⟨fun _ => false, fun _ => (true, ""), fun _ => [("mx.yahoo.com".toList)],
       fun _ _ _ => (SMTPValidator.SMTPStatus.unknown, 450, "Temporary error: busy", false)⟩
      ("user@yahoo.com".toList) =
    ("user@yahoo.com".toList, true, "Temporary error: busy",
     EmailValidationService.Category.unknown) ∧
    (SMTPValidator.validate_mailbox ⟨some "timeout", 0, "", 0, ""⟩ true).1 =
      SMTPValidator.SMTPStatus.unknown ∧
    (SMTPValidator.validate_mailbox ⟨none, 450, "busy", 250, ""⟩ true).1 =
      SMTPValidator.SMTPStatus.unknown :=
  c5_smtp_unknown_is_valid_true ⟨true, true, true⟩ _ _ ("yahoo.com".toList)
    ("mx.yahoo.com".toList) [] 450 "Temporary error: busy" false true true
    ⟨some "timeout", 0, "", 0, ""⟩ ⟨none, 450, "busy", 250, ""⟩ "timeout"
    (by decide) rfl (by decide) rfl rfl rfl rfl rfl rfl rfl (by decide) (by decide) (by decide)

lemma findEntry_cons (e : List Char × (Bool × String))
    (t : List (List Char × (Bool × String))) (d : List Char) :
    DNSChecker.findEntry (e :: t) d =
      if e.1 == d then some e.2 else DNSChecker.findEntry t d := by
  unfold DNSChecker.findEntry
  rw [List.find?_cons]
  cases h : (e.1 == d) <;> simp [h]

lemma findEntry_tail_none (e : List Char × (Bool × String))
    (t : List (List Char × (Bool × String))) (d : List Char)
    (h : DNSChecker.findEntry (e :: t) d = none) :
    DNSChecker.findEntry t d = none := by
  rw [findEntry_cons] at h
  by_cases hed : (e.1 == d) = true
  · rw [if_pos hed] at h
    simp at h
  · rwa [if_neg hed] at h

lemma findEntry_append_last (es : List (List Char × (Bool × String))) (d : List Char)
    (v : Bool × String) (h : DNSChecker.findEntry es d = none) :
    DNSChecker.findEntry (es ++ [(d, v)]) d = some v := by
  induction es with
  | nil =>
    rw [List.nil_append, findEntry_cons]
    simp
  | cons e t ih =>
    rw [findEntry_cons] at h
    by_cases hed : (e.1 == d) = true
    · rw [if_pos hed] at h
      simp at h
    · rw [if_neg hed] at h
      rw [List.cons_append, findEntry_cons, if_neg hed]
      exact ih h

lemma moveToEnd_length (es : List (List Char × (Bool × String))) (d : List Char) :
    (DNSChecker.moveToEnd es d).length = es.length := by
  induction es with
  | nil => rfl
  | cons e t ih =>
    unfold DNSChecker.moveToEnd
    by_cases hed : (e.1 == d) = true
    · rw [if_pos hed]
      simp
    · rw [if_neg hed]
      simp [ih]

lemma moveToEnd_getLast (es : List (List Char × (Bool × String))) (d : List Char)
    (v : Bool × String) (h : DNSChecker.findEntry es d = some v) :
    (DNSChecker.moveToEnd es d).getLast? = some (d, v) := by
  induction es with
  | nil => simp [DNSChecker.findEntry] at h
  | cons e t ih =>
    rw [findEntry_cons] at h
    unfold DNSChecker.moveToEnd
    by_cases hed : (e.1 == d) = true
    · rw [if_pos hed] at h
      have he1 : e.1 = d := by simpa using hed
      have hev : e.2 = v := by simpa using h
      rw [if_pos hed, List.getLast?_concat, ← he1, ← hev]
    · rw [if_neg hed] at h
      have hmt := ih h
      rw [if_neg hed]
      cases hm : DNSChecker.moveToEnd t d with
      | nil => rw [hm] at hmt; simp at hmt
      | cons y ys =>
        rw [hm] at hmt
        rw [List.getLast?_cons_cons]
        exact hmt

lemma check_domain_hit (size : Nat) (impl : List Char → Bool × String × Bool)
    (st : DNSChecker.DNSCacheState) (domain : List Char) (v : Bool × String)
    (h : DNSChecker.findEntry st.entries (domain.map Char.toLower) = some v) :
    DNSChecker.check_domain size impl st domain =
      (v, { st with
            hits := st.hits + 1
            entries := DNSChecker.moveToEnd st.entries (domain.map Char.toLower) }) := by
  simp only [DNSChecker.check_domain, h]

lemma check_domain_miss_transient (size : Nat) (impl : List Char → Bool × String × Bool)
    (st : DNSChecker.DNSCacheState) (domain : List Char) (b : Bool) (e : String)
    (hmiss : DNSChecker.findEntry st.entries (domain.map Char.toLower) = none)
    (himpl : impl (domain.map Char.toLower) = (b, e, false)) :
    DNSChecker.check_domain size impl st domain =
      ((b, e), { st with misses := st.misses + 1 }) := by
  simp only [DNSChecker.check_domain, hmiss, himpl, Bool.false_eq_true, if_false]

lemma check_domain_miss_cacheable (size : Nat) (impl : List Char → Bool × String × Bool)
    (st : DNSChecker.DNSCacheState) (domain : List Char) (b : Bool) (e : String)
    (hmiss : DNSChecker.findEntry st.entries (domain.map Char.toLower) = none)
    (himpl : impl (domain.map Char.toLower) = (b, e, true)) :
    DNSChecker.check_domain size impl st domain =
      ((b, e),
       { st with
         misses := st.misses + 1
         entries :=
           if size < (st.entries ++ [(domain.map Char.toLower, (b, e))]).length then
             (st.entries ++ [(domain.map Char.toLower, (b, e))]).drop 1
           else st.entries ++ [(domain.map Char.toLower, (b, e))] }) := by
  simp only [DNSChecker.check_domain, hmiss, himpl, if_true]

lemma check_domain_entries_length_le (size : Nat) (impl : List Char → Bool × String × Bool)
    (st : DNSChecker.DNSCacheState) (domain : List Char)
    (h : st.entries.length ≤ size) :
    ((DNSChecker.check_domain size impl st domain).2).entries.length ≤ size := by
  cases hf : DNSChecker.findEntry st.entries (domain.map Char.toLower) with
  | some v =>
    rw [check_domain_hit size impl st domain v hf]
    simpa [moveToEnd_length] using h
  | none =>
    rcases himpl : impl (domain.map Char.toLower) with ⟨b, rest⟩
    rcases rest with ⟨e, c⟩
    cases c with
    | false =>
      rw [check_domain_miss_transient size impl st domain b e hf himpl]
      exact h
    | true =>
      rw [check_domain_miss_cacheable size impl st domain b e hf himpl]
      by_cases hlen : size < (st.entries ++ [(domain.map Char.toLower, (b, e))]).length
      · simp only [hlen, if_true]
        simp only [List.length_drop, List.length_append, List.length_singleton]
        omega
      · simp only [hlen, if_false]
        simp only [List.length_append, List.length_singleton] at hlen ⊢
        omega

lemma run_calls_entries_length_le (size : Nat) (impl : List Char → Bool × String × Bool)
    (ds : List (List Char)) (st : DNSChecker.DNSCacheState)
    (h : st.entries.length ≤ size) :
    (DNSChecker.run_calls size impl st ds).entries.length ≤ size := by
  induction ds generalizing st with
  | nil => exact h
  | cons d t ih =>
    have hstep := check_domain_entries_length_le size impl st d h
    simpa [DNSChecker.run_calls, List.foldl] using
      ih ((DNSChecker.check_domain size impl st d).2) hstep

/-- C2: a transient lookup outcome (`cacheable = false`) leaves the cache
entry for the domain absent and unchanged, while a definitive outcome
(`cacheable = true`) stores it; hence a transient failure for a domain
followed by a definitive success caches the definitive outcome, and a later
call for that domain returns the cached value for every possible lookup
behaviour — without consulting the lookup (the miss counter does not
move). -/
theorem c2_transient_never_cached_definitive_cached
    (size : Nat) (impl1 impl2 impl3 : List Char → Bool × String × Bool)
    (st : DNSChecker.DNSCacheState) (domain : List Char) (b1 b2 : Bool) (e1 e2 : String)
    (hsize : 1 ≤ size)
    (hmiss : DNSChecker.findEntry st.entries (domain.map Char.toLower) = none)
    (h1 : impl1 (domain.map Char.toLower) = (b1, e1, false))
    (h2 : impl2 (domain.map Char.toLower) = (b2, e2, true)) :
    (DNSChecker.check_domain size impl1 st domain).1 = (b1, e1) ∧
    ((DNSChecker.check_domain size impl1 st domain).2).entries = st.entries ∧
    (DNSChecker.check_domain size impl2
      (DNSChecker.check_domain size impl1 st domain).2 domain).1 = (b2, e2) ∧
    DNSChecker.findEntry
      ((DNSChecker.check_domain size impl2
        (DNSChecker.check_domain size impl1 st domain).2 domain).2).entries
      (domain.map Char.toLower) = some (b2, e2) ∧
    (DNSChecker.check_domain size impl3
      ((DNSChecker.check_domain size impl2
        (DNSChecker.check_domain size impl1 st domain).2 domain).2) domain).1 = (b2, e2) ∧
    ((DNSChecker.check_domain size impl3
      ((DNSChecker.check_domain size impl2
        (DNSChecker.check_domain size impl1 st domain).2 domain).2) domain).2).misses =
    (((DNSChecker.check_domain size impl2
        (DNSChecker.check_domain size impl1 st domain).2 domain).2)).misses := by
  have s1 := check_domain_miss_transient size impl1 st domain b1 e1 hmiss h1
  have hmiss1 : DNSChecker.findEntry
      (({ st with misses := st.misses + 1 } : DNSChecker.DNSCacheState)).entries
      (domain.map Char.toLower) = none := hmiss
  have s2 := check_domain_miss_cacheable size impl2
    ({ st with misses := st.misses + 1 }) domain b2 e2 hmiss1 h2
  have hfound : DNSChecker.findEntry
      ((DNSChecker.check_domain size impl2
        (DNSChecker.check_domain size impl1 st domain).2 domain).2).entries
      (domain.map Char.toLower) = some (b2, e2) := by
    rw [s1, s2]
    by_cases hlen : size <
        (st.entries ++ [(domain.map Char.toLower, (b2, e2))]).length
    · simp only [hlen, if_true]
      cases hst : st.entries with
      | nil =>
        exfalso
        rw [hst] at hlen
        simp at hlen
        omega
      | cons e0 t0 =>
        simp only [List.cons_append, List.drop_one, List.tail_cons]
        apply findEntry_append_last
        rw [hst] at hmiss
        exact findEntry_tail_none e0 t0 _ hmiss
    · simp only [hlen, if_false]
      exact findEntry_append_last st.entries _ _ hmiss
  have s3 := check_domain_hit size impl3 _ domain (b2, e2) hfound
  refine ⟨?_, ?_, ?_, hfound, ?_, ?_⟩
  · rw [s1]
  · rw [s1]
  · rw [s1, s2]
  · rw [s3]
  · rw [s3]

/-- Witness for C2: empty cache of capacity 2, a timed-out lookup followed
by a definitive success for `yahoo.com`, then a third call with a lookup
that would report failure; the third call still returns the cached
success. -/
theorem c2_transient_never_cached_definitive_cached_witness :
    (DNSChecker.check_domain 2 (fun _ => (false, "DNS check timeout (temporary)", false))
      ⟨[], 0, 0⟩ ("yahoo.com".toList)).1 = (false, "DNS check timeout (temporary)") ∧
    ((DNSChecker.check_domain 2 (fun _ => (false, "DNS check timeout (temporary)", false))
      ⟨[], 0, 0⟩ ("yahoo.com".toList)).2).entries = [] ∧
    (DNSChecker.check_domain 2 (fun _ => (true, "", true))
      ((DNSChecker.check_domain 2 (fun _ => (false, "DNS check timeout (temporary)", false))
        ⟨[], 0, 0⟩ ("yahoo.com".toList)).2) ("yahoo.com".toList)).1 = (true, "") ∧
    DNSChecker.findEntry
      ((DNSChecker.check_domain 2 (fun _ => (true, "", true))
        ((DNSChecker.check_domain 2 (fun _ => (false, "DNS check timeout (temporary)", false))
          ⟨[], 0, 0⟩ ("yahoo.com".toList)).2) ("yahoo.com".toList)).2).entries
      ("yahoo.com".toList.map Char.toLower) = some (true, "") ∧
    (DNSChecker.check_domain 2 (fun _ => (false, "No MX, A, or AAAA records found", true))
      ((DNSChecker.check_domain 2 (fun _ => (true, "", true))
        ((DNSChecker.check_domain 2 (fun _ => (false, "DNS check timeout (temporary)", false))
          ⟨[], 0, 0⟩ ("yahoo.com".toList)).2) ("yahoo.com".toList)).2)
      ("yahoo.com".toList)).1 = (true, "") ∧
    ((DNSChecker.check_domain 2 (fun _ => (false, "No MX, A, or AAAA records found", true))
      ((DNSChecker.check_domain 2 (fun _ => (true, "", true))
        ((DNSChecker.check_domain 2 (fun _ => (false, "DNS check timeout (temporary)", false))
          ⟨[], 0, 0⟩ ("yahoo.com".toList)).2) ("yahoo.com".toList)).2)
      ("yahoo.com".toList)).2).misses =
    ((DNSChecker.check_domain 2 (fun _ => (true, "", true))
      ((DNSChecker.check_domain 2 (fun _ => (false, "DNS check timeout (temporary)", false))
        ⟨[], 0, 0⟩ ("yahoo.com".toList)).2) ("yahoo.com".toList)).2).misses :=
  c2_transient_never_cached_definitive_cached 2
    (fun _ => (false, "DNS check timeout (temporary)", false))
    (fun _ => (true, "", true))
    (fun _ => (false, "No MX, A, or AAAA records found", true))
    ⟨[], 0, 0⟩ ("yahoo.com".toList) false true "DNS check timeout (temporary)" ""
    (by decide) rfl rfl rfl

/-- C9: the cache size never exceeds the configured capacity after any
sequence of `check_domain` calls (eviction drops the least-recently-used
front entry), and a cache hit returns the cached value and moves the hit
entry to the most-recently-used (last) position. -/
theorem c9_cache_bounded_and_lru
    (size : Nat) (impl : List Char → Bool × String × Bool)
    (st : DNSChecker.DNSCacheState) (ds : List (List Char))
    (domain : List Char) (v : Bool × String)
    (hlen : st.entries.length ≤ size)
    (hhit : DNSChecker.findEntry st.entries (domain.map Char.toLower) = some v) :
    (DNSChecker.run_calls size impl st ds).entries.length ≤ size ∧
    (DNSChecker.check_domain size impl st domain).1 = v ∧
    ((DNSChecker.check_domain size impl st domain).2).entries.getLast? =
      some (domain.map Char.toLower, v) := by
  refine ⟨run_calls_entries_length_le size impl ds st hlen, ?_, ?_⟩
  · rw [check_domain_hit size impl st domain v hhit]
  · rw [check_domain_hit size impl st domain v hhit]
    exact moveToEnd_getLast st.entries _ v hhit

/-- Witness for C9: a two-entry cache of capacity 2, two further calls, and
a hit on `yahoo.com` that moves its entry to the most-recent position. -/
theorem c9_cache_bounded_and_lru_witness :
    (DNSChecker.run_calls 2 (fun _ => (true, "", true))
      ⟨[("yahoo.com".toList, (true, "")), ("gmail.com".toList, (true, ""))], 0, 0⟩
      [("aol.com".toList), ("gmx.net".toList)]).entries.length ≤ 2 ∧
    (DNSChecker.check_domain 2 (fun _ => (true, "", true))
      ⟨[("yahoo.com".toList, (true, "")), ("gmail.com".toList, (true, ""))], 0, 0⟩
      ("yahoo.com".toList)).1 = (true, "") ∧
    ((DNSChecker.check_domain 2 (fun _ => (true, "", true))
      ⟨[("yahoo.com".toList, (true, "")), ("gmail.com".toList, (true, ""))], 0, 0⟩
      ("yahoo.com".toList)).2).entries.getLast? =
      some ("yahoo.com".toList.map Char.toLower, (true, "")) :=
  c9_cache_bounded_and_lru 2 (fun _ => (true, "", true))
    ⟨[("yahoo.com".toList, (true, "")), ("gmail.com".toList, (true, ""))], 0, 0⟩
    [("aol.com".toList), ("gmx.net".toList)] ("yahoo.com".toList) (true, "")
    (by decide) (by decide)

/-- C7: on a well-formed OK response, a non-empty MX list with no valid
`exchange` entry yields `(false, "MX records exist but are invalid")`
regardless of the A records (no fallback); with an empty MX list the parser
falls back to A records, answering `(true, "")` when some A entry is a
nonempty address and `(false, "No MX or A records found")` when the A list
is empty as well. -/
theorem c7_mx_invalid_no_a_fallback
    (data records : HTTPDNSChecker.JSON) (mxs aItems : List HTTPDNSChecker.JSON)
    (hstatus : HTTPDNSChecker.pyGet data "status" (.str "") = .ok (.str "OK"))
    (hrecords : HTTPDNSChecker.pyGet data "records" (.obj []) = .ok records)
    (hmx : HTTPDNSChecker.pyGet records "MX" (.arr []) = .ok (.arr mxs))
    (ha : HTTPDNSChecker.pyGet records "A" (.arr []) = .ok (.arr aItems)) :
    (mxs ≠ [] → mxs.all (fun m => !(HTTPDNSChecker.isValidMxEntry m)) = true →
      HTTPDNSChecker.parse_dns_response data =
        some (false, "MX records exist but are invalid")) ∧
    (mxs = [] → aItems.any HTTPDNSChecker.isValidAEntry = true →
      HTTPDNSChecker.parse_dns_response data = some (true, "")) ∧
    (mxs = [] → aItems = [] →
      HTTPDNSChecker.parse_dns_response data =
        some (false, "No MX or A records found")) := by
  refine ⟨?_, ?_, ?_⟩
  · intro hne hall
    have hany : mxs.any HTTPDNSChecker.isValidMxEntry = false := by
      rw [List.any_eq_false]
      intro x hx
      have hx2 := List.all_eq_true.mp hall x hx
      simp only [Bool.not_eq_true'] at hx2
      simp [hx2]
    cases hmxs : mxs with
    | nil => exact absurd hmxs hne
    | cons m ms =>
      rw [hmxs] at hmx hany
      simp [HTTPDNSChecker.parse_dns_response, HTTPDNSChecker.parseBody, hstatus, hrecords,
        hmx, HTTPDNSChecker.pyNonempty, HTTPDNSChecker.pyTruthy, HTTPDNSChecker.pyLen,
        HTTPDNSChecker.pyIter, HTTPDNSChecker.isStrEq, hany]
  · intro hmxs hany
    subst hmxs
    cases haItems : aItems with
    | nil =>
      rw [haItems] at hany
      simp at hany
    | cons a as =>
      rw [haItems] at ha hany
      simp [HTTPDNSChecker.parse_dns_response, HTTPDNSChecker.parseBody, hstatus, hrecords,
        hmx, ha, HTTPDNSChecker.pyNonempty, HTTPDNSChecker.pyTruthy, HTTPDNSChecker.pyLen,
        HTTPDNSChecker.pyIter, HTTPDNSChecker.isStrEq, hany]
  · intro hmxs haItems
    subst hmxs
    subst haItems
    simp [HTTPDNSChecker.parse_dns_response, HTTPDNSChecker.parseBody, hstatus, hrecords,
      hmx, ha, HTTPDNSChecker.pyNonempty, HTTPDNSChecker.pyTruthy, HTTPDNSChecker.pyLen,
      HTTPDNSChecker.pyIter, HTTPDNSChecker.isStrEq]

/-- Witness for C7 at the specification's own test vector:
`{status: "OK", records: {MX: [{exchange: ""}], A: ["192.0.2.1"]}}` parses
to `(false, "MX records exist but are invalid")` — no A fallback. -/
theorem c7_mx_invalid_no_a_fallback_witness :
    HTTPDNSChecker.parse_dns_response
      (.obj [("status", .str "OK"),
             ("records", .obj [("MX", .arr [.obj [("exchange", .str "")]]),
                               ("A", .arr [.str "192.0.2.1"])])]) =
      some (false, "MX records exist but are invalid") :=
  (c7_mx_invalid_no_a_fallback
    (.obj [("status", .str "OK"),
           ("records", .obj [("MX", .arr [.obj [("exchange", .str "")]]),
                             ("A", .arr [.str "192.0.2.1"])])])
    (.obj [("MX", .arr [.obj [("exchange", .str "")]]),
           ("A", .arr [.str "192.0.2.1"])])
    [.obj [("exchange", .str "")]] [.str "192.0.2.1"]
    rfl rfl rfl rfl).1 (List.cons_ne_nil _ _) (by decide)

/-- C8: the DNS checking operations never raise past their boundary: the
response parser yields the retry signal or a structured pair for every
input (every internally raised Python exception is converted to the retry
signal by the boundary handler), and the local checker's domain check
yields a structured `(has_records, error, cacheable)` triple for every
retry budget and every sequence of resolver events; the malformed inputs of
the repository's own exception-safety test (`None`, missing keys, an MX
list holding a bare string, an A value of the wrong type) all produce
structured outcomes. -/
theorem c8_dns_never_raises (data : HTTPDNSChecker.JSON) (n : Nat)
    (events : Nat → LocalDNSChecker.AttemptEvents) :
    (HTTPDNSChecker.parse_dns_response data = none ∨
      ∃ b s, HTTPDNSChecker.parse_dns_response data = some (b, s)) ∧
    (match HTTPDNSChecker.parseBody data with
     | .error _ => HTTPDNSChecker.parse_dns_response data = none
     | .ok r => HTTPDNSChecker.parse_dns_response data = r) ∧
    (∃ has err cacheable,
      LocalDNSChecker.check_domain_impl n events = (has, err, cacheable)) ∧
    HTTPDNSChecker.parse_dns_response .null = none ∧
    HTTPDNSChecker.parse_dns_response (.obj []) = none ∧
    HTTPDNSChecker.parse_dns_response (.obj [("status", .str "OK")]) =
      some (false, "No MX or A records found") ∧
    HTTPDNSChecker.parse_dns_response
      (.obj [("status", .str "OK"), ("records", .obj [("MX", .arr [.str "string"])])]) =
      some (false, "MX records exist but are invalid") ∧
    HTTPDNSChecker.parse_dns_response
      (.obj [("status", .str "OK"), ("records", .obj [("A", .str "string")])]) =
      some (true, "") := by
  refine ⟨?_, ?_, ?_, by decide, by decide, by decide, by decide, by decide⟩
  · cases h : HTTPDNSChecker.parse_dns_response data with
    | none => exact Or.inl rfl
    | some r => exact Or.inr ⟨r.1, r.2, rfl⟩
  · cases hb : HTTPDNSChecker.parseBody data with
    | error e => simp [HTTPDNSChecker.parse_dns_response, hb]
    | ok r => simp [HTTPDNSChecker.parse_dns_response, hb]
  · exact ⟨(LocalDNSChecker.check_domain_impl n events).1,
      (LocalDNSChecker.check_domain_impl n events).2.1,
      (LocalDNSChecker.check_domain_impl n events).2.2, rfl⟩
